import Mathlib

/-!
Verification of the CompilerDemo front end: a DFA lexer (src/Demo01.tsx,
class SimpleLexer), a token reader (class SimpleTokenReader), a recursive
descent parser (Demo03, class SimpleParser) and a tree walking evaluator
(class SimpleScript).  Every definition below is a shallow embedding of the
corresponding TypeScript source; line numbers refer to the source files.
-/

namespace CompilerDemo

/-! ## Token model (Demo01.tsx lines 10-24, 85-104) -/

/-- TokenType enum, Demo01.tsx lines 10-24. -/
inductive TokenType where
  | Identifier
  | IntLiteral
  | GT
  | GE
  | Int
  | Assignment
  | Plus
  | Minus
  | Star
  | Slash
  | SemiColon
  | LeftParen
  | RightParen
deriving DecidableEq, Repr

/-- DfaState enum, Demo01.tsx lines 30-60.  The `Int` state is declared in
the source but never entered. -/
inductive DfaState where
  | Initial
  | Int
  | Id_int1
  | Id_int2
  | Id_int3
  | Id
  | GT
  | GE
  | Assignment
  | Plus
  | Minus
  | Star
  | Slash
  | SemiColon
  | LeftParen
  | RightParen
  | IntLiteral
deriving DecidableEq, Repr

/-- SimpleToken (Demo01.tsx lines 85-104): a type and a text, with the same
defaults as the TypeScript field initialisers (`Identifier`, empty text). -/
structure Token where
  type : TokenType := TokenType.Identifier
  text : List Char := []
deriving DecidableEq, Repr

/-! ## Lexer (Demo01.tsx, class SimpleLexer, lines 153-347) -/

/-- isAlpha, Demo01.tsx lines 159-161. -/
def isAlpha (ch : Char) : Bool :=
  (decide ('a' ≤ ch) && decide (ch ≤ 'z')) || (decide ('A' ≤ ch) && decide (ch ≤ 'Z'))

/-- isDigit, Demo01.tsx lines 164-166. -/
def isDigit (ch : Char) : Bool :=
  decide ('0' ≤ ch) && decide (ch ≤ '9')

/-- isBlank, Demo01.tsx lines 169-171. -/
def isBlank (ch : Char) : Bool :=
  ch == ' ' || ch == '\t' || ch == '\n'

/-- The characters recognised by the classification chain of initToken
(Demo01.tsx lines 191-243); every other character falls into the final
`skip all unknown patterns` branch (lines 244-246). -/
def isRecognizedStart (ch : Char) : Bool :=
  isAlpha ch || isDigit ch || ch == '>' || ch == '+' || ch == '-' || ch == '*' ||
    ch == '/' || ch == ';' || ch == '(' || ch == ')' || ch == '='

/-- The mutable lexing state: the three SimpleLexer instance fields
(tokenText, tokens, token — Demo01.tsx lines 154-156) together with the
local DFA state variable of tokenize (line 261). -/
structure LexRun where
  dfaState : DfaState
  tokenText : List Char
  tokens : List Token
  token : Token
deriving DecidableEq, Repr

/-- The close-out half of initToken, Demo01.tsx lines 180-187: when a
lexeme is mid-accumulation, finalise it as a Token with the type set so
far, push it, and start a fresh accumulator and token. -/
def closeOutToken (r : LexRun) : LexRun :=
  if r.tokenText.length > 0 then
    { r with
      tokens := r.tokens ++ [{ type := r.token.type, text := r.tokenText }],
      tokenText := [],
      token := {} }
  else r

/-- The classification half of initToken, Demo01.tsx lines 190-246: the
if chain over the current character that opens the next token. -/
def classifyChar (r : LexRun) (ch : Char) : LexRun :=
  if isAlpha ch then
    if ch == 'i' then
      { r with dfaState := DfaState.Id_int1,
               token := { r.token with type := TokenType.Identifier },
               tokenText := r.tokenText ++ [ch] }
    else
      { r with dfaState := DfaState.Id,
               token := { r.token with type := TokenType.Identifier },
               tokenText := r.tokenText ++ [ch] }
  else if isDigit ch then
    { r with dfaState := DfaState.IntLiteral,
             token := { r.token with type := TokenType.IntLiteral },
             tokenText := r.tokenText ++ [ch] }
  else if ch == '>' then
    { r with dfaState := DfaState.GT,
             token := { r.token with type := TokenType.GT },
             tokenText := r.tokenText ++ [ch] }
  else if ch == '+' then
    { r with dfaState := DfaState.Plus,
             token := { r.token with type := TokenType.Plus },
             tokenText := r.tokenText ++ [ch] }
  else if ch == '-' then
    { r with dfaState := DfaState.Minus,
             token := { r.token with type := TokenType.Minus },
             tokenText := r.tokenText ++ [ch] }
  else if ch == '*' then
    { r with dfaState := DfaState.Star,
             token := { r.token with type := TokenType.Star },
             tokenText := r.tokenText ++ [ch] }
  else if ch == '/' then
    { r with dfaState := DfaState.Slash,
             token := { r.token with type := TokenType.Slash },
             tokenText := r.tokenText ++ [ch] }
  else if ch == ';' then
    { r with dfaState := DfaState.SemiColon,
             token := { r.token with type := TokenType.SemiColon },
             tokenText := r.tokenText ++ [ch] }
  else if ch == '(' then
    { r with dfaState := DfaState.LeftParen,
             token := { r.token with type := TokenType.LeftParen },
             tokenText := r.tokenText ++ [ch] }
  else if ch == ')' then
    { r with dfaState := DfaState.RightParen,
             token := { r.token with type := TokenType.RightParen },
             tokenText := r.tokenText ++ [ch] }
  else if ch == '=' then
    { r with dfaState := DfaState.Assignment,
             token := { r.token with type := TokenType.Assignment },
             tokenText := r.tokenText ++ [ch] }
  else
    { r with dfaState := DfaState.Initial } -- skip all unknown patterns (line 245)

/-- initToken, Demo01.tsx lines 178-248: close out the token accumulated
so far (if any), then classify the current character and open the next
token. -/
def initToken (r : LexRun) (ch : Char) : LexRun :=
  classifyChar (closeOutToken r) ch

/-- One iteration of the character loop of tokenize, Demo01.tsx lines
267-338: the switch over the current DFA state. -/
def lexStep (r : LexRun) (ch : Char) : LexRun :=
  match r.dfaState with
  | DfaState.Initial => initToken r ch
  | DfaState.Id =>
    if isAlpha ch || isDigit ch then { r with tokenText := r.tokenText ++ [ch] }
    else initToken r ch
  | DfaState.GT =>
    if ch == '=' then
      { r with token := { r.token with type := TokenType.GE },
               dfaState := DfaState.GE,
               tokenText := r.tokenText ++ [ch] }
    else initToken r ch
  | DfaState.GE => initToken r ch
  | DfaState.Assignment => initToken r ch
  | DfaState.Plus => initToken r ch
  | DfaState.Minus => initToken r ch
  | DfaState.Star => initToken r ch
  | DfaState.Slash => initToken r ch
  | DfaState.SemiColon => initToken r ch
  | DfaState.LeftParen => initToken r ch
  | DfaState.RightParen => initToken r ch
  | DfaState.IntLiteral =>
    if isDigit ch then { r with tokenText := r.tokenText ++ [ch] }
    else initToken r ch
  | DfaState.Id_int1 =>
    if ch == 'n' then { r with dfaState := DfaState.Id_int2, tokenText := r.tokenText ++ [ch] }
    else if isDigit ch || isAlpha ch then
      { r with dfaState := DfaState.Id, tokenText := r.tokenText ++ [ch] }
    else initToken r ch
  | DfaState.Id_int2 =>
    if ch == 't' then { r with dfaState := DfaState.Id_int3, tokenText := r.tokenText ++ [ch] }
    else if isDigit ch || isAlpha ch then
      { r with dfaState := DfaState.Id, tokenText := r.tokenText ++ [ch] }
    else initToken r ch
  | DfaState.Id_int3 =>
    -- lines 327-335: a blank commits the keyword; ANY other character is
    -- absorbed into the lexeme and the state falls back to Id
    if isBlank ch then
      initToken { r with token := { r.token with type := TokenType.Int } } ch
    else
      { r with dfaState := DfaState.Id, tokenText := r.tokenText ++ [ch] }
  | DfaState.Int => r -- unreachable state, default case of the switch

/-- The three mutable SimpleLexer instance fields, Demo01.tsx lines
154-156. -/
structure LexInst where
  tokenText : List Char := []
  tokens : List Token := []
  token : Token := {}
deriving DecidableEq, Repr

/-- tokenize, Demo01.tsx lines 255-347.  The method first reassigns all
three instance fields (lines 256-258), then folds the DFA step over the
characters, and finally forces one last close-out when a lexeme is still
mid-accumulation (lines 342-344, which call initToken with the last
character of the input; that character only decides the dead restarted
token, never the emitted list).  The result is the token list handed to
SimpleTokenReader, paired with the final instance state. -/
def tokenize (inst : LexInst) (code : List Char) : List Token × LexInst :=
  let inst1 : LexInst := { inst with tokens := [], tokenText := [], token := {} }
  let r0 : LexRun :=
    { dfaState := DfaState.Initial, tokenText := inst1.tokenText,
      tokens := inst1.tokens, token := inst1.token }
  let r1 := code.foldl lexStep r0
  let r2 :=
    if r1.tokenText.length > 0 then initToken r1 (code.getLastD ' ') else r1
  (r2.tokens, { tokenText := r2.tokenText, tokens := r2.tokens, token := r2.token })

/-! ## AST model (Demo03, part_000 lines 146-202) -/

/-- ASTNodeType enum, part_000 lines 146-156. -/
inductive ASTNodeType where
  | Programm
  | IntDeclaration
  | ExpressionStmt
  | AssignmentStmt
  | Primary
  | Multiplicative
  | Additive
  | Identifier
  | IntLiteral
deriving DecidableEq, Repr

/-- SimpleASTNode, part_000 lines 171-202: a node type, an initialisation
text and an ordered child list.  The parent back reference is a non owning
relation used only for tree dumps, never read by the parser or evaluator,
so it is not modelled. -/
inductive SimpleASTNode where
  | mk (nodeType : ASTNodeType) (text : List Char) (children : List SimpleASTNode)
deriving Repr

/-- getType accessor, part_000 lines 190-192. -/
def SimpleASTNode.nodeType : SimpleASTNode → ASTNodeType
  | SimpleASTNode.mk t _ _ => t

/-- getText accessor, part_000 lines 194-196. -/
def SimpleASTNode.text : SimpleASTNode → List Char
  | SimpleASTNode.mk _ tx _ => tx

/-- getChildren accessor, part_000 lines 186-188. -/
def SimpleASTNode.children : SimpleASTNode → List SimpleASTNode
  | SimpleASTNode.mk _ _ cs => cs

/-- addChild, part_000 lines 198-201: append a child (the parent back
reference set there is not modelled). -/
def addChild : SimpleASTNode → SimpleASTNode → SimpleASTNode
  | SimpleASTNode.mk t tx cs, c => SimpleASTNode.mk t tx (cs ++ [c])

/-! ## Token reader (Demo01.tsx, class SimpleTokenReader, lines 110-147)

The token array is assigned once in the constructor and never mutated, so
it is embedded as a fixed `toks` argument while the mutable cursor `pos` is
threaded explicitly. -/

abbrev Toks := List Token

/-- peek, Demo01.tsx lines 125-130: the token under the cursor, or null
past the end. -/
def peekT (toks : Toks) (pos : Nat) : Option Token :=
  if h : pos < toks.length then some (toks.get ⟨pos, h⟩) else none

/-- read, Demo01.tsx lines 118-123: return the token under the cursor and
advance, or null without moving past the end. -/
def readT (toks : Toks) (pos : Nat) : Option Token × Nat :=
  if h : pos < toks.length then (some (toks.get ⟨pos, h⟩), pos + 1) else (none, pos)

/-- unread, Demo01.tsx lines 132-136: move the cursor back one step,
silently ignored at position zero. -/
def unreadT (pos : Nat) : Nat :=
  if pos > 0 then pos - 1 else pos

/-- setPosition, Demo01.tsx lines 142-146: move the cursor to `position`
when it lies strictly inside `[0, tokens.length)`, otherwise leave the
cursor untouched. -/
def setPositionT (toks : Toks) (pos : Nat) (position : Int) : Nat :=
  if 0 ≤ position ∧ position < (toks.length : Int) then position.toNat else pos

/-! ## Parser (Demo03, part_000, class SimpleParser, lines 204-484)

The parsing methods throw on committed failures and signal a soft
non-match by returning null; both channels are embedded in `Except`: a
thrown Error is `Except.error (PErr.msg ...)` and a null result is
`Except.ok (none, ...)`.  The mutual recursion through parenthesised
expressions is made structural with a fuel argument; running out of fuel
is the distinct `PErr.outOfFuel` (never produced for any input when the
fuel exceeds the recursion depth).  After a successful `peekT toks pos =
some token`, the source call `tokens.read()` returns that same token and
moves the cursor to `pos + 1`; the embedding inlines that. -/

inductive PErr where
  | msg (s : String)
  | outOfFuel
deriving DecidableEq, Repr

mutual

/-- primary, part_000 lines 440-471. -/
def primary (toks : Toks) (fuel : Nat) (pos : Nat) : Except PErr (SimpleASTNode × Nat) :=
  match fuel with
  | 0 => Except.error PErr.outOfFuel
  | fuel + 1 =>
    match peekT toks pos with
    | some token =>
      if token.type = TokenType.IntLiteral then
        Except.ok (SimpleASTNode.mk ASTNodeType.IntLiteral token.text [], pos + 1)
      else if token.type = TokenType.Identifier then
        Except.ok (SimpleASTNode.mk ASTNodeType.Identifier token.text [], pos + 1)
      else if token.type = TokenType.LeftParen then
        -- additive never returns null, so the `expecting an additive
        -- expression inside parenthesis` throw of line 463 is dead code
        match additive toks fuel (pos + 1) with
        | Except.error e => Except.error e
        | Except.ok (node, p1) =>
          match peekT toks p1 with
          | some t2 =>
            if t2.type = TokenType.RightParen then Except.ok (node, p1 + 1)
            else Except.error (PErr.msg "expecting right parenthesis")
          | none => Except.error (PErr.msg "expecting right parenthesis")
      else Except.error (PErr.msg "primary expression expected")
    | none => Except.error (PErr.msg "primary expression expected")
termination_by structural fuel

/-- multiplicative, part_000 lines 410-432: one primary, then the
operator loop. -/
def multiplicative (toks : Toks) (fuel : Nat) (pos : Nat) : Except PErr (SimpleASTNode × Nat) :=
  match fuel with
  | 0 => Except.error PErr.outOfFuel
  | fuel + 1 =>
    match primary toks fuel pos with
    | Except.error e => Except.error e
    | Except.ok (child1, p1) => multLoop toks fuel child1 p1
termination_by structural fuel

/-- The `while (true)` loop of multiplicative, part_000 lines 414-430.
Note line 418: the right operand is parsed by a recursive call to
multiplicative itself, NOT by primary as the comment `mul -> pri (* pri)*`
on line 411 states.  The node, built from a non null child, is never null,
so the throw of line 425 is dead code. -/
def multLoop (toks : Toks) (fuel : Nat) (child1 : SimpleASTNode) (pos : Nat) :
    Except PErr (SimpleASTNode × Nat) :=
  match fuel with
  | 0 => Except.error PErr.outOfFuel
  | fuel + 1 =>
    match peekT toks pos with
    | some token =>
      if token.type = TokenType.Star ∨ token.type = TokenType.Slash then
        match multiplicative toks fuel (pos + 1) with
        | Except.error e => Except.error e
        | Except.ok (child2, p2) =>
          multLoop toks fuel
            (SimpleASTNode.mk ASTNodeType.Multiplicative token.text [child1, child2]) p2
      else Except.ok (child1, pos)
    | none => Except.ok (child1, pos)
termination_by structural fuel

/-- additive, part_000 lines 375-401: one multiplicative, then the
operator loop. -/
def additive (toks : Toks) (fuel : Nat) (pos : Nat) : Except PErr (SimpleASTNode × Nat) :=
  match fuel with
  | 0 => Except.error PErr.outOfFuel
  | fuel + 1 =>
    match multiplicative toks fuel pos with
    | Except.error e => Except.error e
    | Except.ok (child1, p1) => addLoop toks fuel child1 p1
termination_by structural fuel

/-- The `while (true)` loop of additive, part_000 lines 381-398: the right
operand is a multiplicative, and the new Additive node takes the
accumulated node as its left child (left associativity).  multiplicative
never returns null, so the throw of line 393 is dead code. -/
def addLoop (toks : Toks) (fuel : Nat) (child1 : SimpleASTNode) (pos : Nat) :
    Except PErr (SimpleASTNode × Nat) :=
  match fuel with
  | 0 => Except.error PErr.outOfFuel
  | fuel + 1 =>
    match peekT toks pos with
    | some token =>
      if token.type = TokenType.Plus ∨ token.type = TokenType.Minus then
        match multiplicative toks fuel (pos + 1) with
        | Except.error e => Except.error e
        | Except.ok (child2, p2) =>
          addLoop toks fuel
            (SimpleASTNode.mk ASTNodeType.Additive token.text [child1, child2]) p2
      else Except.ok (child1, pos)
    | none => Except.ok (child1, pos)
termination_by structural fuel

end

/-- expressionStatement, part_000 lines 253-266: record the cursor, parse
an additive, and either consume the trailing semicolon or restore the
recorded cursor and return null. -/
def expressionStatement (toks : Toks) (fuel : Nat) (pos : Nat) :
    Except PErr (Option SimpleASTNode × Nat) :=
  match additive toks fuel pos with
  | Except.error e => Except.error e
  | Except.ok (node, p1) =>
    match peekT toks p1 with
    | some token =>
      if token.type = TokenType.SemiColon then Except.ok (some node, p1 + 1)
      else Except.ok (none, setPositionT toks p1 (pos : Int))
    | none => Except.ok (none, setPositionT toks p1 (pos : Int))

/-- assignmentStatement, part_000 lines 274-303.  additive never returns
null, so the `expecting an expression` throw of line 286 is dead code. -/
def assignmentStatement (toks : Toks) (fuel : Nat) (pos : Nat) :
    Except PErr (Option SimpleASTNode × Nat) :=
  match peekT toks pos with
  | some token =>
    if token.type = TokenType.Identifier then
      let node := SimpleASTNode.mk ASTNodeType.AssignmentStmt token.text []
      match peekT toks (pos + 1) with
      | some t2 =>
        if t2.type = TokenType.Assignment then
          match additive toks fuel (pos + 2) with
          | Except.error e => Except.error e
          | Except.ok (child, p2) =>
            match peekT toks p2 with
            | some t3 =>
              if t3.type = TokenType.SemiColon then
                Except.ok (some (addChild node child), p2 + 1)
              else Except.error (PErr.msg "invalid statement, expecting semicolon")
            | none => Except.error (PErr.msg "invalid statement, expecting semicolon")
        else Except.ok (none, unreadT (pos + 1)) -- push the identifier back
      | none => Except.ok (none, unreadT (pos + 1))
    else Except.ok (none, pos)
  | none => Except.ok (none, pos)

/-- The semicolon check closing intDeclare, part_000 lines 339-346. -/
def declSemi (toks : Toks) (node : SimpleASTNode) (pos : Nat) :
    Except PErr (Option SimpleASTNode × Nat) :=
  match peekT toks pos with
  | some token =>
    if token.type = TokenType.SemiColon then Except.ok (some node, pos + 1)
    else Except.error (PErr.msg "invalid statement, expecting semicolon")
  | none => Except.error (PErr.msg "invalid statement, expecting semicolon")

/-- intDeclare, part_000 lines 311-349.  additive never returns null, so
the `expecting an expression` throw of line 331 is dead code. -/
def intDeclare (toks : Toks) (fuel : Nat) (pos : Nat) :
    Except PErr (Option SimpleASTNode × Nat) :=
  match peekT toks pos with
  | some token =>
    if token.type = TokenType.Int then
      match peekT toks (pos + 1) with
      | some t2 =>
        if t2.type = TokenType.Identifier then
          let node := SimpleASTNode.mk ASTNodeType.IntDeclaration t2.text []
          match peekT toks (pos + 2) with
          | some t3 =>
            if t3.type = TokenType.Assignment then
              match additive toks fuel (pos + 3) with
              | Except.error e => Except.error e
              | Except.ok (child, p3) => declSemi toks (addChild node child) p3
            else declSemi toks node (pos + 2)
          | none => declSemi toks node (pos + 2)
        else Except.error (PErr.msg "variable name expected")
      | none => Except.error (PErr.msg "variable name expected")
    else Except.ok (none, pos)
  | none => Except.ok (none, pos)

/-- The `while (tokens.peek())` loop of prog, part_000 lines 230-243: try
intDeclare, then expressionStatement, then assignmentStatement, add the
matched statement as a child, or throw when none matched. -/
def progLoop (toks : Toks) (fuel : Nat) (node : SimpleASTNode) (pos : Nat) :
    Except PErr (SimpleASTNode × Nat) :=
  match fuel with
  | 0 => Except.error PErr.outOfFuel
  | fuel + 1 =>
    match peekT toks pos with
    | none => Except.ok (node, pos)
    | some _ =>
      match intDeclare toks fuel pos with
      | Except.error e => Except.error e
      | Except.ok (some child, p1) => progLoop toks fuel (addChild node child) p1
      | Except.ok (none, p1) =>
        match expressionStatement toks fuel p1 with
        | Except.error e => Except.error e
        | Except.ok (some child, p2) => progLoop toks fuel (addChild node child) p2
        | Except.ok (none, p2) =>
          match assignmentStatement toks fuel p2 with
          | Except.error e => Except.error e
          | Except.ok (some child, p3) => progLoop toks fuel (addChild node child) p3
          | Except.ok (none, _) => Except.error (PErr.msg "unknown statement")
termination_by structural fuel

/-- prog, part_000 lines 227-246: the Programm root node with text demo. -/
def prog (toks : Toks) (fuel : Nat) : Except PErr SimpleASTNode :=
  match progLoop toks fuel (SimpleASTNode.mk ASTNodeType.Programm "demo".data []) 0 with
  | Except.error e => Except.error e
  | Except.ok (node, _) => Except.ok node

/-- parse, part_000 lines 211-219: tokenize with a fresh SimpleLexer, then
apply prog. -/
def parse (fuel : Nat) (code : List Char) : Except PErr SimpleASTNode :=
  prog (tokenize {} code).1 fuel

/-! ## Evaluator (class SimpleScript, part_000 lines 7-105)

The evaluator computes with JavaScript numbers.  All values produced from
the language are integer valued, except that division feeds `Math.floor`
an IEEE quotient that can be Infinity, -Infinity or NaN; the value domain
is therefore embedded as an exact integer together with those three
special values (integer arithmetic idealised as exact, matching the spec
which fixes no overflow behaviour).  The `indent` parameter of evaluate
only drives console logging and does not influence the returned value, so
it is not modelled. -/

/-- A JavaScript number as produced by this evaluator: an exact integer or
one of the IEEE special values. -/
inductive JSVal where
  | num (n : Int)
  | posInf
  | negInf
  | nan
deriving DecidableEq, Repr

/-- IEEE addition restricted to the embedded value domain (the `+` of
part_000 line 32). -/
def jsAdd : JSVal → JSVal → JSVal
  | JSVal.nan, _ => JSVal.nan
  | _, JSVal.nan => JSVal.nan
  | JSVal.num a, JSVal.num b => JSVal.num (a + b)
  | JSVal.posInf, JSVal.negInf => JSVal.nan
  | JSVal.negInf, JSVal.posInf => JSVal.nan
  | JSVal.posInf, _ => JSVal.posInf
  | _, JSVal.posInf => JSVal.posInf
  | JSVal.negInf, _ => JSVal.negInf
  | _, JSVal.negInf => JSVal.negInf

/-- IEEE subtraction restricted to the embedded value domain (the `-` of
part_000 line 34). -/
def jsSub : JSVal → JSVal → JSVal
  | JSVal.nan, _ => JSVal.nan
  | _, JSVal.nan => JSVal.nan
  | JSVal.num a, JSVal.num b => JSVal.num (a - b)
  | JSVal.posInf, JSVal.posInf => JSVal.nan
  | JSVal.negInf, JSVal.negInf => JSVal.nan
  | JSVal.posInf, _ => JSVal.posInf
  | JSVal.negInf, _ => JSVal.negInf
  | JSVal.num _, JSVal.posInf => JSVal.negInf
  | JSVal.num _, JSVal.negInf => JSVal.posInf

/-- IEEE multiplication restricted to the embedded value domain (the `*`
of part_000 line 44). -/
def jsMul : JSVal → JSVal → JSVal
  | JSVal.nan, _ => JSVal.nan
  | _, JSVal.nan => JSVal.nan
  | JSVal.num a, JSVal.num b => JSVal.num (a * b)
  | JSVal.posInf, JSVal.posInf => JSVal.posInf
  | JSVal.posInf, JSVal.negInf => JSVal.negInf
  | JSVal.negInf, JSVal.posInf => JSVal.negInf
  | JSVal.negInf, JSVal.negInf => JSVal.posInf
  | JSVal.posInf, JSVal.num b =>
    if 0 < b then JSVal.posInf else if b < 0 then JSVal.negInf else JSVal.nan
  | JSVal.num a, JSVal.posInf =>
    if 0 < a then JSVal.posInf else if a < 0 then JSVal.negInf else JSVal.nan
  | JSVal.negInf, JSVal.num b =>
    if 0 < b then JSVal.negInf else if b < 0 then JSVal.posInf else JSVal.nan
  | JSVal.num a, JSVal.negInf =>
    if 0 < a then JSVal.negInf else if a < 0 then JSVal.posInf else JSVal.nan

/-- The composition `Math.floor(x / y)` of part_000 line 46, with `/` the
IEEE division.  On finite integer operands the quotient is exact before
flooring, so the result is the floor division `Int.fdiv`; a zero divisor
yields the IEEE signed infinity (or NaN for 0/0), which `Math.floor` maps
to itself.  A finite value divided by an infinity is (signed) zero, which
`Math.floor` maps to itself. -/
def jsFloorDiv : JSVal → JSVal → JSVal
  | JSVal.nan, _ => JSVal.nan
  | _, JSVal.nan => JSVal.nan
  | JSVal.num a, JSVal.num b =>
    if b = 0 then
      if 0 < a then JSVal.posInf else if a < 0 then JSVal.negInf else JSVal.nan
    else JSVal.num (Int.fdiv a b)
  | JSVal.posInf, JSVal.num b => if 0 ≤ b then JSVal.posInf else JSVal.negInf
  | JSVal.negInf, JSVal.num b => if 0 ≤ b then JSVal.negInf else JSVal.posInf
  | JSVal.num _, _ => JSVal.num 0
  | JSVal.posInf, _ => JSVal.nan
  | JSVal.negInf, _ => JSVal.nan

/-- Runtime meaning of the non null assertions `value!` in the binary
cases (part_000 lines 32-46): the assertion is erased at runtime, and in a
JavaScript arithmetic operator a null operand coerces to 0. -/
def coerceNull : Option JSVal → JSVal
  | none => JSVal.num 0
  | some v => v

/-- Truthiness of a `number | null` JavaScript value: null, 0 and NaN are
falsy.  Used to embed the `|| null` of part_000 line 57. -/
def jsTruthy : Option JSVal → Bool
  | none => false
  | some (JSVal.num n) => !(n == 0)
  | some JSVal.nan => false
  | some _ => true

/-- parseInt(text, 10) of part_000 line 51, on the texts this interpreter
meets: an optional sign followed by the maximal leading digit run, NaN
when that run is empty.  (The leading whitespace trimming of parseInt is
not modelled: no token text starts with whitespace.) -/
def parseIntJS (s : List Char) : JSVal :=
  match s with
  | '-' :: rest =>
    if (rest.takeWhile isDigit).isEmpty then JSVal.nan
    else JSVal.num (-(((rest.takeWhile isDigit).foldl
      (fun a c => a * 10 + (c.toNat - '0'.toNat)) 0 : Nat) : Int))
  | '+' :: rest =>
    if (rest.takeWhile isDigit).isEmpty then JSVal.nan
    else JSVal.num (((rest.takeWhile isDigit).foldl
      (fun a c => a * 10 + (c.toNat - '0'.toNat)) 0 : Nat) : Int)
  | _ =>
    if (s.takeWhile isDigit).isEmpty then JSVal.nan
    else JSVal.num (((s.takeWhile isDigit).foldl
      (fun a c => a * 10 + (c.toNat - '0'.toNat)) 0 : Nat) : Int)

/-- The two Errors thrown by SimpleScript.evaluate (part_000 lines 61 and
64-72), plus the TypeError a JavaScript run would raise when a binary node
misses a child (unreachable on parser produced trees). -/
inductive EvalErr where
  | unsetVariable (name : List Char)
  | unknownVariable (name : List Char)
  | typeError
deriving DecidableEq, Repr

/-- The `variables` Map of part_000 line 9: insertion ordered bindings of
a name to a `number | null`. -/
abbrev Env := List (List Char × Option JSVal)

/-- Map.has. -/
def envHas (env : Env) (name : List Char) : Bool :=
  env.any (fun p => p.1 == name)

/-- Map.get: undefined (none) when the key is absent. -/
def envGet (env : Env) (name : List Char) : Option (Option JSVal) :=
  (env.find? (fun p => p.1 == name)).map (fun p => p.2)

/-- Map.set: overwrite in place, or append a new binding. -/
def envSet : Env → List Char → Option JSVal → Env
  | [], name, v => [(name, v)]
  | (k, w) :: rest, name, v =>
    if k == name then (name, v) :: rest else (k, w) :: envSet rest name v

mutual

/-- SimpleScript.evaluate, part_000 lines 17-104, with the environment
threaded explicitly in place of the mutable `variables` field. -/
def evaluate (env : Env) (node : SimpleASTNode) : Except EvalErr (Option JSVal × Env) :=
  match node with
  | SimpleASTNode.mk nodeType text children =>
    match nodeType with
    | ASTNodeType.Programm => evalChildren env none children
    | ASTNodeType.Additive =>
      match children with
      | c1 :: c2 :: _ =>
        match evaluate env c1 with
        | Except.error e => Except.error e
        | Except.ok (v1, env1) =>
          match evaluate env1 c2 with
          | Except.error e => Except.error e
          | Except.ok (v2, env2) =>
            if text = "+".data then
              Except.ok (some (jsAdd (coerceNull v1) (coerceNull v2)), env2)
            else
              Except.ok (some (jsSub (coerceNull v1) (coerceNull v2)), env2)
      | _ => Except.error EvalErr.typeError
    | ASTNodeType.Multiplicative =>
      match children with
      | c1 :: c2 :: _ =>
        match evaluate env c1 with
        | Except.error e => Except.error e
        | Except.ok (v1, env1) =>
          match evaluate env1 c2 with
          | Except.error e => Except.error e
          | Except.ok (v2, env2) =>
            if text = "*".data then
              Except.ok (some (jsMul (coerceNull v1) (coerceNull v2)), env2)
            else
              Except.ok (some (jsFloorDiv (coerceNull v1) (coerceNull v2)), env2)
      | _ => Except.error EvalErr.typeError
    | ASTNodeType.IntLiteral => Except.ok (some (parseIntJS text), env)
    | ASTNodeType.Identifier =>
      -- part_000 lines 53-67
      if envHas env text then
        let got := match envGet env text with | some w => w | none => none
        let value := if jsTruthy got then got else none -- get(varName) || null
        match value with
        | some v => Except.ok (some v, env)
        | none => Except.error (EvalErr.unsetVariable text)
      else Except.error (EvalErr.unknownVariable text)
    | ASTNodeType.AssignmentStmt =>
      -- part_000 lines 68-74, falling through to the declaration code
      if envHas env text then declBind env text children
      else Except.error (EvalErr.unknownVariable text)
    | ASTNodeType.IntDeclaration => declBind env text children
    | _ => Except.ok (none, env) -- default: other node types untouched

/-- The shared binding code of IntDeclaration (and the AssignmentStmt fall
through), part_000 lines 77-87: evaluate the child if present and bind its
value, else bind null. -/
def declBind (env : Env) (text : List Char) (children : List SimpleASTNode) :
    Except EvalErr (Option JSVal × Env) :=
  match children with
  | c :: _ =>
    match evaluate env c with
    | Except.error e => Except.error e
    | Except.ok (v, env1) => Except.ok (v, envSet env1 text v)
  | [] => Except.ok (none, envSet env text none)

/-- The Programm loop of part_000 lines 21-25: evaluate the children in
order, the result being the last child result (null for no children). -/
def evalChildren (env : Env) (acc : Option JSVal) (cs : List SimpleASTNode) :
    Except EvalErr (Option JSVal × Env) :=
  match cs with
  | [] => Except.ok (acc, env)
  | c :: rest =>
    match evaluate env c with
    | Except.error e => Except.error e
    | Except.ok (v, env1) => evalChildren env1 v rest

end

/-! ## Identifier token shape (spec predicates and lexer invariant)

The spec fixes the identifier token grammar `[A-Za-z][A-Za-z0-9]*`.  The
predicates below express that regex and the one exception the code
actually produces: in the Id_int3 state (lexeme exactly `int`) any
non-blank character is absorbed into the lexeme (Demo01.tsx lines
331-334), so a token text can also be `int` followed by one character
that is neither blank nor alphanumeric and then letters and digits. -/

/-- A letter or a digit. -/
def isAlnumChar (ch : Char) : Bool :=
  isAlpha ch || isDigit ch

/-- The spec regex `[A-Za-z][A-Za-z0-9]*` on a token text. -/
def matchesIdent : List Char → Bool
  | [] => false
  | c :: rest => isAlpha c && rest.all isAlnumChar

/-- The exceptional texts produced through the Id_int3 state: exactly
`int`, then one absorbed character that is neither alphanumeric nor
blank, then letters and digits. -/
def exceptionalIdent : List Char → Bool
  | c1 :: c2 :: c3 :: c :: rest =>
    (c1 == 'i') && (c2 == 'n') && (c3 == 't') &&
      !(isAlnumChar c) && !(isBlank c) && rest.all isAlnumChar
  | _ => false

/-- Every Identifier token text the lexer can emit has one of the two
shapes. -/
def goodIdentText (text : List Char) : Bool :=
  matchesIdent text || exceptionalIdent text

/-- A token is acceptable when, if its kind is Identifier, its text has
one of the two shapes. -/
def tokenOk (t : Token) : Prop :=
  t.type = TokenType.Identifier → goodIdentText t.text = true

/-- The relation between the DFA state, the accumulating lexeme and the
type of the in-progress token that the lexer loop maintains. -/
def stateTextOk (r : LexRun) : Prop :=
  match r.dfaState with
  | DfaState.Initial => r.tokenText = []
  | DfaState.Id => r.token.type = TokenType.Identifier ∧ goodIdentText r.tokenText = true
  | DfaState.Id_int1 => r.token.type = TokenType.Identifier ∧ r.tokenText = ['i']
  | DfaState.Id_int2 => r.token.type = TokenType.Identifier ∧ r.tokenText = ['i', 'n']
  | DfaState.Id_int3 => r.token.type = TokenType.Identifier ∧ r.tokenText = ['i', 'n', 't']
  | DfaState.IntLiteral => r.token.type = TokenType.IntLiteral
  | DfaState.GT => r.token.type = TokenType.GT
  | DfaState.GE => r.token.type = TokenType.GE
  | DfaState.Assignment => r.token.type = TokenType.Assignment
  | DfaState.Plus => r.token.type = TokenType.Plus
  | DfaState.Minus => r.token.type = TokenType.Minus
  | DfaState.Star => r.token.type = TokenType.Star
  | DfaState.Slash => r.token.type = TokenType.Slash
  | DfaState.SemiColon => r.token.type = TokenType.SemiColon
  | DfaState.LeftParen => r.token.type = TokenType.LeftParen
  | DfaState.RightParen => r.token.type = TokenType.RightParen
  | DfaState.Int => False

/-- The loop invariant of tokenize: all emitted tokens are acceptable and
the in-progress state is consistent. -/
def runInv (r : LexRun) : Prop :=
  (∀ t ∈ r.tokens, tokenOk t) ∧ stateTextOk r

/-! ## Claim theorems -/

/-- C1: the claim states that the multiplicative routine builds a LEFT
associated AST for `a op1 b op2 c`, so that `8/4/2` becomes `(8/4)/2`.
The code (part_000 line 418) parses the right operand with a recursive
call to multiplicative itself, contradicting its own grammar comment
`mul -> pri (* pri)*` (line 411): parsing `8/4/2;` actually yields the
RIGHT associated tree `8/(4/2)`, whose left child is the leaf 8 and whose
right child is the inner Multiplicative node; it evaluates to 4, while the
left associated tree the claim requires evaluates to 1. -/
theorem c1_mult_right_assoc :
    parse 64 ("8/4/2;".data) =
      Except.ok (SimpleASTNode.mk ASTNodeType.Programm "demo".data
        [SimpleASTNode.mk ASTNodeType.Multiplicative "/".data
          [SimpleASTNode.mk ASTNodeType.IntLiteral "8".data [],
           SimpleASTNode.mk ASTNodeType.Multiplicative "/".data
             [SimpleASTNode.mk ASTNodeType.IntLiteral "4".data [],
              SimpleASTNode.mk ASTNodeType.IntLiteral "2".data []]]]) ∧
    evaluate [] (SimpleASTNode.mk ASTNodeType.Programm "demo".data
        [SimpleASTNode.mk ASTNodeType.Multiplicative "/".data
          [SimpleASTNode.mk ASTNodeType.IntLiteral "8".data [],
           SimpleASTNode.mk ASTNodeType.Multiplicative "/".data
             [SimpleASTNode.mk ASTNodeType.IntLiteral "4".data [],
              SimpleASTNode.mk ASTNodeType.IntLiteral "2".data []]]]) =
      Except.ok (some (JSVal.num 4), []) ∧
    evaluate [] (SimpleASTNode.mk ASTNodeType.Programm "demo".data
        [SimpleASTNode.mk ASTNodeType.Multiplicative "/".data
          [SimpleASTNode.mk ASTNodeType.Multiplicative "/".data
             [SimpleASTNode.mk ASTNodeType.IntLiteral "8".data [],
              SimpleASTNode.mk ASTNodeType.IntLiteral "4".data []],
           SimpleASTNode.mk ASTNodeType.IntLiteral "2".data []]]) =
      Except.ok (some (JSVal.num 1), []) := by
  refine ⟨rfl, rfl, rfl⟩

/-- C2: the claim states that evaluating an Identifier bound to the
integer 0 returns 0 and raises no error.  The code (part_000 line 57)
reads the binding through `this.variables.get(varName) || null`, and 0 is
falsy in JavaScript, so the bound 0 collapses to null and the evaluator
throws the UnsetVariable error instead: evaluating the program
`int x = 0; x;` fails with `variable x has not been set any value`
although x was set to 0. -/
theorem c2_zero_bound_raises_unset :
    parse 64 ("int x = 0; x;".data) =
      Except.ok (SimpleASTNode.mk ASTNodeType.Programm "demo".data
        [SimpleASTNode.mk ASTNodeType.IntDeclaration "x".data
           [SimpleASTNode.mk ASTNodeType.IntLiteral "0".data []],
         SimpleASTNode.mk ASTNodeType.Identifier "x".data []]) ∧
    evaluate [] (SimpleASTNode.mk ASTNodeType.Programm "demo".data
        [SimpleASTNode.mk ASTNodeType.IntDeclaration "x".data
           [SimpleASTNode.mk ASTNodeType.IntLiteral "0".data []],
         SimpleASTNode.mk ASTNodeType.Identifier "x".data []]) =
      Except.error (EvalErr.unsetVariable "x".data) ∧
    evaluate [("x".data, some (JSVal.num 0))]
        (SimpleASTNode.mk ASTNodeType.Identifier "x".data []) =
      Except.error (EvalErr.unsetVariable "x".data) := by
  refine ⟨rfl, rfl, rfl⟩

/-- C3 counterexample: the claim states that a Multiplicative node with
operator `/` raises a DivisionByZero error when the right child evaluates
to 0.  The evaluator has no such error: `Math.floor(1 / 0)` simply
produces the IEEE Infinity, and evaluation of `1/0` succeeds with that
non integer sentinel. -/
theorem c3_div_zero_no_error :
    evaluate [] (SimpleASTNode.mk ASTNodeType.Multiplicative "/".data
        [SimpleASTNode.mk ASTNodeType.IntLiteral "1".data [],
         SimpleASTNode.mk ASTNodeType.IntLiteral "0".data []]) =
      Except.ok (some JSVal.posInf, []) := by
  rfl

/-- C3 amended: with a `/` Multiplicative node whose children evaluate to
the integers a and b, evaluation never raises (the evaluator defines no
DivisionByZero error at all): when b = 0 the result is the non integer
sentinel Infinity, -Infinity or NaN according to the sign of a, and when
b is nonzero the result is the floor of the quotient. -/
theorem c3_slash_floor_or_sentinel (env env1 env2 : Env) (n1 n2 : SimpleASTNode)
    (a b : Int)
    (h1 : evaluate env n1 = Except.ok (some (JSVal.num a), env1))
    (h2 : evaluate env1 n2 = Except.ok (some (JSVal.num b), env2)) :
    evaluate env (SimpleASTNode.mk ASTNodeType.Multiplicative "/".data [n1, n2]) =
      Except.ok (some (if b = 0 then
          (if 0 < a then JSVal.posInf else if a < 0 then JSVal.negInf else JSVal.nan)
        else JSVal.num (Int.fdiv a b)), env2) := by
  rw [evaluate]
  simp only [h1, h2]
  rw [if_neg (by decide : ¬("/".data = "*".data))]
  simp [jsFloorDiv, coerceNull]

/-- Witness for C3 amended: dividing 8 by the literal 0 raises nothing
and returns the Infinity sentinel. -/
theorem c3_slash_floor_or_sentinel_witness :
    evaluate [] (SimpleASTNode.mk ASTNodeType.Multiplicative "/".data
        [SimpleASTNode.mk ASTNodeType.IntLiteral "8".data [],
         SimpleASTNode.mk ASTNodeType.IntLiteral "0".data []]) =
      Except.ok (some JSVal.posInf, []) := by
  have h := c3_slash_floor_or_sentinel [] [] []
    (SimpleASTNode.mk ASTNodeType.IntLiteral "8".data [])
    (SimpleASTNode.mk ASTNodeType.IntLiteral "0".data []) 8 0 rfl rfl
  simpa using h

/-- C6: parsing `2+3+4;` yields the left associated additive AST, whose
outer node has the Additive node over 2 and 3 as its left child and the
leaf 4 as its right child, and evaluating the parsed statement yields 9. -/
theorem c6_additive_left_assoc :
    parse 64 ("2+3+4;".data) =
      Except.ok (SimpleASTNode.mk ASTNodeType.Programm "demo".data
        [SimpleASTNode.mk ASTNodeType.Additive "+".data
          [SimpleASTNode.mk ASTNodeType.Additive "+".data
             [SimpleASTNode.mk ASTNodeType.IntLiteral "2".data [],
              SimpleASTNode.mk ASTNodeType.IntLiteral "3".data []],
           SimpleASTNode.mk ASTNodeType.IntLiteral "4".data []]]) ∧
    evaluate [] (SimpleASTNode.mk ASTNodeType.Programm "demo".data
        [SimpleASTNode.mk ASTNodeType.Additive "+".data
          [SimpleASTNode.mk ASTNodeType.Additive "+".data
             [SimpleASTNode.mk ASTNodeType.IntLiteral "2".data [],
              SimpleASTNode.mk ASTNodeType.IntLiteral "3".data []],
           SimpleASTNode.mk ASTNodeType.IntLiteral "4".data []]]) =
      Except.ok (some (JSVal.num 9), []) := by
  refine ⟨rfl, rfl⟩

/-- C7: tokenizing `int age = 30` yields exactly the four tokens
IntKeyword, Identifier age, Assignment, IntLiteral 30; the final literal
is closed out by the forced flush at end of input, and the `int` was
committed to the keyword kind by the whitespace following it. -/
theorem c7_tokenize_int_age :
    (tokenize {} ("int age = 30".data)).1 =
      [{ type := TokenType.Int, text := "int".data },
       { type := TokenType.Identifier, text := "age".data },
       { type := TokenType.Assignment, text := "=".data },
       { type := TokenType.IntLiteral, text := "30".data }] := by
  rfl

/-- C10: tokenize first reassigns all three lexer instance fields, so its
result (token list and final instance state alike) does not depend on the
instance state left behind by any earlier call: any two calls on the same
source string produce identical token sequences. -/
theorem c10_tokenize_deterministic (i1 i2 : LexInst) (code : List Char) :
    tokenize i1 code = tokenize i2 code := by
  cases i1
  cases i2
  rfl

/-- C9: setPosition moves the cursor to `position` exactly when
`0 <= position < tokens.length`, and is otherwise a silent no-op, so it
can never place the cursor at the one-past-end position (while read can
advance the cursor there). -/
theorem c9_setPosition_contract (toks : Toks) (pos : Nat) (position : Int) :
    (0 ≤ position ∧ position < (toks.length : Int) →
      setPositionT toks pos position = position.toNat) ∧
    (¬(0 ≤ position ∧ position < (toks.length : Int)) →
      setPositionT toks pos position = pos) ∧
    (pos ≠ toks.length → setPositionT toks pos position ≠ toks.length) ∧
    (pos + 1 = toks.length → (readT toks pos).2 = toks.length) := by
  refine ⟨fun h => ?_, fun h => ?_, fun h => ?_, fun h => ?_⟩
  · rw [setPositionT, if_pos h]
  · rw [setPositionT, if_neg h]
  · rw [setPositionT]
    split
    · next hc => omega
    · exact h
  · rw [readT]
    rw [dif_pos (by omega : pos < toks.length)]
    exact h

/-- Witness for C9 at a one-token stream: an in-range setPosition moves,
an out-of-range one is a no-op, the cursor cannot be set to the
one-past-end position 1, and a read from position 0 does advance to 1. -/
theorem c9_setPosition_contract_witness :
    setPositionT [{ type := TokenType.SemiColon, text := ";".data }] 0 0 = 0 ∧
    setPositionT [{ type := TokenType.SemiColon, text := ";".data }] 0 5 = 0 ∧
    setPositionT [{ type := TokenType.SemiColon, text := ";".data }] 0 0 ≠ 1 ∧
    (readT [{ type := TokenType.SemiColon, text := ";".data }] 0).2 = 1 := by
  refine ⟨?_, ?_, ?_, ?_⟩
  · exact (c9_setPosition_contract _ 0 0).1 (by decide)
  · exact (c9_setPosition_contract _ 0 5).2.1 (by decide)
  · exact (c9_setPosition_contract [{ type := TokenType.SemiColon, text := ";".data }] 0 0).2.2.1
      (by decide)
  · exact (c9_setPosition_contract [{ type := TokenType.SemiColon, text := ";".data }] 0 0).2.2.2
      (by decide)

/-- C8: the lexer is a total function - tokenize is defined on every
input string - and a character the classification chain does not
recognise (whitespace included) is skipped in the Initial state: the step
neither emits a token nor changes any state, and nothing is ever
raised (the embedding returns a plain token list, with no error case). -/
theorem c8_lexer_total_and_skips (code : List Char) (r : LexRun) (ch : Char)
    (h1 : r.dfaState = DfaState.Initial) (h2 : r.tokenText = [])
    (h3 : isRecognizedStart ch = false) :
    lexStep r ch = r ∧ ∃ ts : List Token, (tokenize {} code).1 = ts := by
  refine ⟨?_, ⟨(tokenize {} code).1, rfl⟩⟩
  obtain ⟨st, text, tks, tok⟩ := r
  simp only at h1 h2
  subst h1 h2
  simp only [isRecognizedStart, Bool.or_eq_false_iff] at h3
  obtain ⟨⟨⟨⟨⟨⟨⟨⟨⟨⟨ha, hd⟩, hgt⟩, hplus⟩, hminus⟩, hstar⟩, hslash⟩, hsemi⟩, hlp⟩, hrp⟩, heq⟩ := h3
  simp [lexStep, initToken, closeOutToken, classifyChar, ha, hd, hgt, hplus, hminus, hstar,
    hslash, hsemi, hlp, hrp, heq]

/-- Witness for C8: a space character in the Initial state with an empty
lexeme is skipped outright, and tokenize is defined on `a b`. -/
theorem c8_lexer_total_and_skips_witness :
    lexStep { dfaState := DfaState.Initial, tokenText := [],
              tokens := [], token := {} } ' ' =
      { dfaState := DfaState.Initial, tokenText := [], tokens := [], token := {} } ∧
    ∃ ts : List Token, (tokenize {} ("a b".data)).1 = ts := by
  exact c8_lexer_total_and_skips ("a b".data) _ ' ' rfl rfl (by decide)

/-- A successful primary parse starts strictly inside the token list: the
very first peek would otherwise return null and primary would throw. -/
theorem primary_ok_pos_lt (toks : Toks) (fuel pos : Nat) (r : SimpleASTNode × Nat)
    (h : primary toks fuel pos = Except.ok r) : pos < toks.length := by
  cases fuel with
  | zero => simp [primary] at h
  | succ n =>
    by_cases hp : pos < toks.length
    · exact hp
    · rw [primary, peekT, dif_neg hp] at h
      simp at h

/-- A successful multiplicative parse starts strictly inside the token
list (it begins with a primary). -/
theorem multiplicative_ok_pos_lt (toks : Toks) (fuel pos : Nat) (r : SimpleASTNode × Nat)
    (h : multiplicative toks fuel pos = Except.ok r) : pos < toks.length := by
  cases fuel with
  | zero => simp [multiplicative] at h
  | succ n =>
    rw [multiplicative] at h
    cases hp : primary toks n pos with
    | error e => rw [hp] at h; simp at h
    | ok r2 => exact primary_ok_pos_lt toks n pos r2 hp

/-- A successful additive parse starts strictly inside the token list (it
begins with a multiplicative). -/
theorem additive_ok_pos_lt (toks : Toks) (fuel pos : Nat) (r : SimpleASTNode × Nat)
    (h : additive toks fuel pos = Except.ok r) : pos < toks.length := by
  cases fuel with
  | zero => simp [additive] at h
  | succ n =>
    rw [additive] at h
    cases hp : multiplicative toks n pos with
    | error e => rw [hp] at h; simp at h
    | ok r2 => exact multiplicative_ok_pos_lt toks n pos r2 hp

/-- C5: when the speculative expressionStatement attempt fails softly (an
additive was parsed but the next token is not a semicolon, so the method
returns null instead of throwing), the returned cursor equals exactly the
position recorded before the attempt - the getPosition/setPosition round
trip - so the subsequent assignmentStatement attempt starts from the same
position. -/
theorem c5_expressionStatement_soft_fail_restores (toks : Toks) (fuel pos p2 : Nat)
    (h : expressionStatement toks fuel pos = Except.ok (none, p2)) : p2 = pos := by
  cases ha : additive toks fuel pos with
  | error e => rw [expressionStatement, ha] at h; simp at h
  | ok nr =>
    obtain ⟨node, p1⟩ := nr
    have h2 : (match peekT toks p1 with
        | some token =>
          if token.type = TokenType.SemiColon then Except.ok (some node, p1 + 1)
          else Except.ok (none, setPositionT toks p1 (pos : Int))
        | none => Except.ok (none, setPositionT toks p1 (pos : Int))) =
        (Except.ok (none, p2) : Except PErr (Option SimpleASTNode × Nat)) := by
      rw [← h, expressionStatement, ha]
    have hlt : pos < toks.length := additive_ok_pos_lt toks fuel pos (node, p1) ha
    have hcond : 0 ≤ (pos : Int) ∧ (pos : Int) < (toks.length : Int) := by omega
    have hset : setPositionT toks p1 (pos : Int) = pos := by
      rw [setPositionT, if_pos hcond]
      omega
    cases hpk : peekT toks p1 with
    | none =>
      rw [hpk] at h2
      simp only [Except.ok.injEq, Prod.mk.injEq, true_and] at h2
      rw [← h2, hset]
    | some tok =>
      rw [hpk] at h2
      by_cases hsemi : tok.type = TokenType.SemiColon
      · simp [hsemi] at h2
      · simp only [hsemi, if_neg, ite_false, Except.ok.injEq, Prod.mk.injEq, true_and] at h2
        rw [← h2, hset]

/-- Witness for C5: on the stream of `;2+3`, the speculative attempt from
position 1 parses the additive 2+3, finds no trailing semicolon, and
restores the cursor to exactly 1. -/
theorem c5_expressionStatement_soft_fail_restores_witness :
    expressionStatement
        ({ type := TokenType.SemiColon, text := ";".data } :: (tokenize {} ("2+3".data)).1)
        64 1 = Except.ok (none, 1) ∧ (1 : Nat) = 1 := by
  have h : expressionStatement
      ({ type := TokenType.SemiColon, text := ";".data } :: (tokenize {} ("2+3".data)).1)
      64 1 = Except.ok (none, 1) := rfl
  exact ⟨h, c5_expressionStatement_soft_fail_restores _ 64 1 1 h⟩

/-- A consistent in-progress state can always be closed out: a nonempty
lexeme whose token type is Identifier has one of the two shapes. -/
theorem stateTextOk_closeable (r : LexRun) (h : stateTextOk r) :
    r.tokenText ≠ [] → r.token.type = TokenType.Identifier → goodIdentText r.tokenText = true := by
  intro hne htype
  obtain ⟨st, text, tks, tok⟩ := r
  dsimp only at hne htype ⊢
  cases st <;> dsimp only [stateTextOk] at h
  case Initial => exact absurd h hne
  case Id_int1 => rw [h.2]; decide
  case Id_int2 => rw [h.2]; decide
  case Id_int3 => rw [h.2]; decide
  case Id => exact h.2
  all_goals (rw [htype] at h; exact absurd h (by decide))

/-- Appending a letter or digit preserves both identifier shapes. -/
theorem goodIdentText_append (text : List Char) (ch : Char)
    (h : goodIdentText text = true) (hch : isAlnumChar ch = true) :
    goodIdentText (text ++ [ch]) = true := by
  rcases text with _ | ⟨c1, _ | ⟨c2, _ | ⟨c3, _ | ⟨c, rest⟩⟩⟩⟩ <;>
    simp_all [goodIdentText, matchesIdent, exceptionalIdent, List.all_append]

/-- closeOutToken always leaves an empty lexeme. -/
theorem closeOutToken_text (r : LexRun) : (closeOutToken r).tokenText = [] := by
  rw [closeOutToken]
  split
  · rfl
  · next hl => exact List.length_eq_zero.mp (by omega)

/-- closeOutToken preserves acceptability of all emitted tokens, given
that the in-progress token is closeable. -/
theorem closeOutToken_tokens_ok (r : LexRun)
    (h1 : ∀ t ∈ r.tokens, tokenOk t)
    (h2 : r.tokenText ≠ [] → r.token.type = TokenType.Identifier →
      goodIdentText r.tokenText = true) :
    ∀ t ∈ (closeOutToken r).tokens, tokenOk t := by
  rw [closeOutToken]
  split
  · next hl =>
    intro t ht
    simp only [List.mem_append, List.mem_singleton] at ht
    rcases ht with ht | ht
    · exact h1 t ht
    · subst ht
      intro htype
      exact h2 (by intro hnil; rw [hnil] at hl; simp at hl) htype
  · exact h1

/-- classifyChar establishes the loop invariant from a closed-out state:
the emitted tokens are untouched and the opened state is consistent. -/
theorem classifyChar_inv (r : LexRun) (ch : Char)
    (h1 : ∀ t ∈ r.tokens, tokenOk t) (h2 : r.tokenText = []) :
    runInv (classifyChar r ch) := by
  obtain ⟨st, text, tks, tok⟩ := r
  dsimp only at h2
  subst h2
  rw [classifyChar]
  by_cases hA : isAlpha ch = true
  · rw [if_pos hA]
    by_cases hI : (ch == 'i') = true
    · rw [if_pos hI]
      exact ⟨h1, ⟨rfl, by simp [show ch = 'i' from by simpa using hI]⟩⟩
    · rw [if_neg hI]
      refine ⟨h1, ⟨rfl, ?_⟩⟩
      simp [goodIdentText, matchesIdent, hA]
  · rw [if_neg hA]
    by_cases hD : isDigit ch = true
    · rw [if_pos hD]
      exact ⟨h1, rfl⟩
    · rw [if_neg hD]
      by_cases hGT : (ch == '>') = true
      · rw [if_pos hGT]; exact ⟨h1, rfl⟩
      · rw [if_neg hGT]
        by_cases hP : (ch == '+') = true
        · rw [if_pos hP]; exact ⟨h1, rfl⟩
        · rw [if_neg hP]
          by_cases hM : (ch == '-') = true
          · rw [if_pos hM]; exact ⟨h1, rfl⟩
          · rw [if_neg hM]
            by_cases hSt : (ch == '*') = true
            · rw [if_pos hSt]; exact ⟨h1, rfl⟩
            · rw [if_neg hSt]
              by_cases hSl : (ch == '/') = true
              · rw [if_pos hSl]; exact ⟨h1, rfl⟩
              · rw [if_neg hSl]
                by_cases hSc : (ch == ';') = true
                · rw [if_pos hSc]; exact ⟨h1, rfl⟩
                · rw [if_neg hSc]
                  by_cases hLp : (ch == '(') = true
                  · rw [if_pos hLp]; exact ⟨h1, rfl⟩
                  · rw [if_neg hLp]
                    by_cases hRp : (ch == ')') = true
                    · rw [if_pos hRp]; exact ⟨h1, rfl⟩
                    · rw [if_neg hRp]
                      by_cases hEq : (ch == '=') = true
                      · rw [if_pos hEq]; exact ⟨h1, rfl⟩
                      · rw [if_neg hEq]; exact ⟨h1, rfl⟩

/-- initToken preserves acceptability of the emitted tokens and
establishes a consistent in-progress state. -/
theorem initToken_inv (r : LexRun) (ch : Char)
    (h1 : ∀ t ∈ r.tokens, tokenOk t)
    (h2 : r.tokenText ≠ [] → r.token.type = TokenType.Identifier →
      goodIdentText r.tokenText = true) :
    runInv (initToken r ch) := by
  rw [initToken]
  exact classifyChar_inv (closeOutToken r) ch (closeOutToken_tokens_ok r h1 h2)
    (closeOutToken_text r)

/-- The DFA step preserves the loop invariant. -/
theorem lexStep_inv (r : LexRun) (ch : Char) (h : runInv r) : runInv (lexStep r ch) := by
  obtain ⟨h1, hst⟩ := h
  have hclose := stateTextOk_closeable r hst
  obtain ⟨st, text, tks, tok⟩ := r
  cases st
  case Initial =>
    dsimp only [lexStep]
    exact initToken_inv _ ch h1 hclose
  case Int => exact ⟨h1, hst⟩
  case Id_int1 =>
    dsimp only [lexStep]
    dsimp only [stateTextOk] at hst
    by_cases hN : (ch == 'n') = true
    · rw [if_pos hN]
      refine ⟨h1, ⟨hst.1, ?_⟩⟩
      rw [hst.2, show ch = 'n' from by simpa using hN]
      rfl
    · rw [if_neg hN]
      by_cases hA : (isDigit ch || isAlpha ch) = true
      · rw [if_pos hA]
        refine ⟨h1, ⟨hst.1, ?_⟩⟩
        rw [hst.2]
        have halnum : isAlnumChar ch = true := by
          simpa [isAlnumChar, Bool.or_comm] using hA
        simp [goodIdentText, matchesIdent, halnum,
          show isAlpha 'i' = true from by decide]
      · rw [if_neg hA]
        exact initToken_inv _ ch h1 hclose
  case Id_int2 =>
    dsimp only [lexStep]
    dsimp only [stateTextOk] at hst
    by_cases hT : (ch == 't') = true
    · rw [if_pos hT]
      refine ⟨h1, ⟨hst.1, ?_⟩⟩
      rw [hst.2, show ch = 't' from by simpa using hT]
      rfl
    · rw [if_neg hT]
      by_cases hA : (isDigit ch || isAlpha ch) = true
      · rw [if_pos hA]
        refine ⟨h1, ⟨hst.1, ?_⟩⟩
        rw [hst.2]
        have halnum : isAlnumChar ch = true := by
          simpa [isAlnumChar, Bool.or_comm] using hA
        simp [goodIdentText, matchesIdent, halnum,
          show isAlpha 'i' = true from by decide,
          show isAlnumChar 'n' = true from by decide]
      · rw [if_neg hA]
        exact initToken_inv _ ch h1 hclose
  case Id_int3 =>
    dsimp only [lexStep]
    dsimp only [stateTextOk] at hst
    by_cases hB : isBlank ch = true
    · rw [if_pos hB]
      refine initToken_inv _ ch h1 ?_
      intro _ htype
      have hx : TokenType.Int = TokenType.Identifier := htype
      exact absurd hx (by decide)
    · rw [if_neg hB]
      refine ⟨h1, ⟨hst.1, ?_⟩⟩
      rw [hst.2]
      by_cases hA : isAlnumChar ch = true
      · simp [goodIdentText, matchesIdent, hA,
          show isAlpha 'i' = true from by decide,
          show isAlnumChar 'n' = true from by decide,
          show isAlnumChar 't' = true from by decide]
      · have ha : isAlnumChar ch = false := by simpa using hA
        have hb : isBlank ch = false := by simpa using hB
        simp [goodIdentText, exceptionalIdent, ha, hb]
  case Id =>
    dsimp only [lexStep]
    dsimp only [stateTextOk] at hst
    by_cases hA : (isAlpha ch || isDigit ch) = true
    · rw [if_pos hA]
      exact ⟨h1, ⟨hst.1, goodIdentText_append text ch hst.2 hA⟩⟩
    · rw [if_neg hA]
      exact initToken_inv _ ch h1 hclose
  case IntLiteral =>
    dsimp only [lexStep]
    by_cases hD : isDigit ch = true
    · rw [if_pos hD]
      exact ⟨h1, hst⟩
    · rw [if_neg hD]
      exact initToken_inv _ ch h1 hclose
  case GT =>
    dsimp only [lexStep]
    by_cases hE : (ch == '=') = true
    · rw [if_pos hE]
      exact ⟨h1, rfl⟩
    · rw [if_neg hE]
      exact initToken_inv _ ch h1 hclose
  all_goals (dsimp only [lexStep]; exact initToken_inv _ ch h1 hclose)

/-- The character fold of tokenize preserves the loop invariant. -/
theorem foldl_lexStep_inv (code : List Char) (r : LexRun) (h : runInv r) :
    runInv (code.foldl lexStep r) := by
  induction code generalizing r with
  | nil => exact h
  | cons c rest ih => exact ih (lexStep r c) (lexStep_inv r c h)

/-- C4 counterexample: the claim states every Identifier token text
matches `[A-Za-z][A-Za-z0-9]*`, and specifically that a `;` immediately
after the prefix `int` triggers close-out and re-dispatch.  In the source
(Demo01.tsx lines 331-334) the Id_int3 state instead absorbs any
non-blank character into the lexeme: tokenizing `int;` emits the single
Identifier token with text `int;`, which fails the regex. -/
theorem c4_int_semicolon_absorbed :
    (tokenize {} ("int;".data)).1 =
      [{ type := TokenType.Identifier, text := "int;".data }] ∧
    matchesIdent ("int;".data) = false := by
  refine ⟨rfl, by decide⟩

/-- C4 amended: in the identifier states Id, Id_int1 and Id_int2 only
letters and digits are absorbed and any other character closes the token
out, but the Id_int3 state (lexeme exactly `int`) absorbs any non-blank
character; consequently every token tokenize emits with kind Identifier
has a text that either matches `[A-Za-z][A-Za-z0-9]*` or is `int`
followed by one non-blank non-alphanumeric character and then letters
and digits. -/
theorem c4_identifier_token_shape (inst : LexInst) (code : List Char) (t : Token)
    (ht : t ∈ (tokenize inst code).1) (htype : t.type = TokenType.Identifier) :
    goodIdentText t.text = true := by
  obtain ⟨itext, itks, itok⟩ := inst
  have hinv : runInv (code.foldl lexStep
      { dfaState := DfaState.Initial, tokenText := [], tokens := [], token := {} }) :=
    foldl_lexStep_inv code _ ⟨by simp, rfl⟩
  rw [tokenize] at ht
  dsimp only at ht
  by_cases hlen : (code.foldl lexStep
      { dfaState := DfaState.Initial, tokenText := [], tokens := [],
        token := {} }).tokenText.length > 0
  · rw [if_pos hlen] at ht
    exact (initToken_inv _ (code.getLastD ' ') hinv.1
      (stateTextOk_closeable _ hinv.2)).1 t ht htype
  · rw [if_neg hlen] at ht
    exact hinv.1 t ht htype

/-- Witness for C4 amended: the Identifier token `age` emitted for
`int age = 30` has the regex shape. -/
theorem c4_identifier_token_shape_witness :
    goodIdentText ("age".data) = true := by
  exact c4_identifier_token_shape {} ("int age = 30".data)
    { type := TokenType.Identifier, text := "age".data } (by decide) rfl

end CompilerDemo
